import Mathlib

/-!
Verification of the RusticOS interrupt / low-level device-input layer
(`src/interrupt.cpp`, `src/interrupt.h`, the kernel keyboard decoder in
`kernel.cpp`).  Hardware port I/O is modelled as an explicit event trace,
machine integers as `Nat` with explicit truncation where the C code
truncates, and the CMOS/RTC hardware as an environment function giving the
value returned by the k-th data-port read.
-/

namespace RusticOS

/-! ## Port events (traces of `outb` / `inb`) -/

inductive PortEvent where
  | readPort : Nat → Nat → PortEvent
  | writePort : Nat → Nat → PortEvent
deriving DecidableEq, Repr

/-- Number of End-Of-Interrupt writes (value `0x20`) to the given command
port in a trace. -/
def count_eoi_writes (port : Nat) : List PortEvent → Nat
  | [] => 0
  | PortEvent.writePort p v :: rest =>
      (if p = port ∧ v = 0x20 then 1 else 0) + count_eoi_writes port rest
  | _ :: rest => count_eoi_writes port rest

/-- Number of reads of the given port in a trace. -/
def count_reads (port : Nat) : List PortEvent → Nat
  | [] => 0
  | PortEvent.readPort p _ :: rest =>
      (if p = port then 1 else 0) + count_reads port rest
  | _ :: rest => count_reads port rest

/-! ## PIC: end-of-interrupt and masking (`interrupt.cpp`) -/

def PIC1_COMMAND : Nat := 0x20
def PIC1_DATA : Nat := 0x21
def PIC2_COMMAND : Nat := 0xA0
def PIC2_DATA : Nat := 0xA1
def PIC_EOI : Nat := 0x20

/-- Embeds `send_eoi` (interrupt.cpp:207): the slave EOI write when
`irq >= 8`, then the master EOI write always. -/
def send_eoi (irq : Nat) : List PortEvent :=
  (if 8 ≤ irq then [PortEvent.writePort PIC2_COMMAND PIC_EOI] else [])
    ++ [PortEvent.writePort PIC1_COMMAND PIC_EOI]

/-- The two 8-bit interrupt mask registers (master at port 0x21, slave at
port 0xA1); each value is an 8-bit byte. -/
structure PICMasks where
  master : Nat
  slave : Nat
deriving DecidableEq, Repr

/-- Embeds `enable_irq` (interrupt.cpp:229): read-modify-write clearing bit
`irq mod 8` of the owning controller's mask byte; `irq > 15` is a no-op.
`value &= ~(1 << irq)` on a `uint8_t` equals `value &&& (255 ^^^ (1 <<< irq))`. -/
def enable_irq (irq : Nat) (m : PICMasks) : PICMasks :=
  if irq > 15 then m
  else if irq < 8 then
    { m with master := m.master &&& (255 ^^^ (1 <<< irq)) }
  else
    { m with slave := m.slave &&& (255 ^^^ (1 <<< (irq - 8))) }

/-- Embeds `disable_irq` (interrupt.cpp:263): read-modify-write setting bit
`irq mod 8` of the owning controller's mask byte; `irq > 15` is a no-op. -/
def disable_irq (irq : Nat) (m : PICMasks) : PICMasks :=
  if irq > 15 then m
  else if irq < 8 then
    { m with master := m.master ||| (1 <<< irq) }
  else
    { m with slave := m.slave ||| (1 <<< (irq - 8)) }

/-- The mask bit owning IRQ line `n` (0-15): bit `n` of the master byte for
lines 0-7, bit `n-8` of the slave byte for lines 8-15. -/
def pic_line_bit (m : PICMasks) (n : Nat) : Bool :=
  if n < 8 then m.master.testBit n else m.slave.testBit (n - 8)

/-! ## Keyboard decoder (`kernel.cpp`) -/

/-- Decoder state from kernel.cpp:122-125: `shift_pressed`,
`expecting_break_code`, `last_scan_code`. -/
structure KBState where
  shift_pressed : Bool
  expecting_break_code : Bool
  last_scan_code : Nat
deriving DecidableEq, Repr

/-- The 58-entry unshifted scan-code-set-1 table (kernel.cpp:134), as ASCII
codes; 0 means no character. -/
def set1_unshifted : List Nat :=
  [0, 0, 49, 50, 51, 52, 53, 54, 55, 56,
   57, 48, 45, 61, 8, 9, 113, 119, 101, 114,
   116, 121, 117, 105, 111, 112, 91, 93, 10, 0,
   97, 115, 100, 102, 103, 104, 106, 107,
   108, 59, 39, 96, 0, 92, 122, 120, 99, 118,
   98, 110, 109, 44, 46, 47, 0, 0, 32, 0]

/-- The 58-entry shifted scan-code-set-1 table (kernel.cpp:144), as ASCII
codes; 0 means no character. -/
def set1_shifted : List Nat :=
  [0, 0, 33, 64, 35, 36, 37, 94, 38, 42,
   40, 41, 95, 43, 8, 9, 81, 87, 69, 82,
   84, 89, 85, 73, 79, 80, 123, 125, 10, 0,
   65, 83, 68, 70, 71, 72, 74, 75,
   76, 58, 34, 126, 0, 124, 90, 88, 67, 86,
   66, 78, 77, 60, 62, 63, 0, 0, 32, 0]

/-- Embeds `scancode_set1_to_ascii` (kernel.cpp:131): table lookup for codes
below 0x3A, 0 otherwise. -/
def scancode_set1_to_ascii (code : Nat) (shift : Bool) : Nat :=
  if code < 0x3A then (if shift then set1_shifted else set1_unshifted).getD code 0
  else 0

/-- Embeds `scancode_to_char` (kernel.cpp:237) together with the decoder
state it reads and writes; the returned `Nat` is the produced ASCII code,
0 meaning no character. -/
def scancode_to_char (st : KBState) (scan_code : Nat) : KBState × Nat :=
  if scan_code = 0xE0 then
    ({ st with last_scan_code := 0xE0 }, 0)
  else if scan_code = 0xF0 then
    ({ st with expecting_break_code := true }, 0)
  else if st.expecting_break_code then
    ({ st with expecting_break_code := false }, 0)
  else
    let released : Bool := scan_code &&& 0x80 != 0
    let key_code := scan_code &&& 0x7F
    if key_code = 0x2A ∨ key_code = 0x36 then
      ({ st with shift_pressed := !released }, 0)
    else if released then (st, 0)
    else if key_code = 0x39 then (st, 32)
    else if key_code = 0x1C then (st, 10)
    else if key_code = 0x0E then (st, 8)
    else (st, scancode_set1_to_ascii key_code st.shift_pressed)

/-! ## IRQ dispatch (`irq_handler`, interrupt.cpp:295) -/

/-- Kernel state touched by the IRQ path: the timer tick counter
(interrupt.cpp:29), the keyboard decoder state and the queue of decoded key
events. -/
structure KernelState where
  system_ticks : Nat
  kb : KBState
  key_events : List Nat
deriving DecidableEq, Repr

/-- Modelled from the spec: `KeyboardDriver::handle_interrupt`
(keyboard.cpp is not among the provided sources).  Per spec section 4.3/4.4 the
driver forwards the byte to the decoder and enqueues the decoded key event;
it touches only decoder state and the event queue. -/
def handle_interrupt (st : KernelState) (scan_code : Nat) : KernelState :=
  let r := scancode_to_char st.kb scan_code
  { st with
    kb := r.1
    key_events := if r.2 ≠ 0 then st.key_events ++ [r.2] else st.key_events }

/-- Embeds `irq_handler` (interrupt.cpp:295): switch on the line number
(0 = timer tick, 1 = keyboard data-port read and decode, default = nothing),
then `send_eoi(irq)` on every path.  `env` supplies the byte an `inb` of the
keyboard data port returns.  Result: new state and the port-event trace. -/
def irq_handler (irq : Nat) (st : KernelState) (env : Nat → Nat) :
    KernelState × List PortEvent :=
  if irq = 0 then
    ({ st with system_ticks := st.system_ticks + 1 }, send_eoi irq)
  else if irq = 1 then
    let scan := env 0x60
    (handle_interrupt st scan, PortEvent.readPort 0x60 scan :: send_eoi irq)
  else
    (st, send_eoi irq)

/-! ## Exception handler (`exception_handler`, interrupt.cpp:407) -/

/-- The static name table (interrupt.cpp:325). -/
def exception_names : List String :=
  ["Divide by Zero",
   "Debug",
   "Non-Maskable Interrupt",
   "Breakpoint",
   "Overflow",
   "Bound Range Exceeded",
   "Invalid Opcode",
   "Device Not Available",
   "Double Fault",
   "Coprocessor Segment Overrun",
   "Invalid TSS",
   "Segment Not Present",
   "Stack Fault",
   "General Protection Fault",
   "Page Fault",
   "Reserved (15)",
   "x87 FPU Error",
   "Alignment Check",
   "Machine Check",
   "SIMD Floating-Point Exception",
   "Virtualization Exception",
   "Control Protection Exception",
   "Reserved (22)",
   "Reserved (23)",
   "Reserved (24)",
   "Reserved (25)",
   "Reserved (26)",
   "Reserved (27)",
   "Hypervisor Injection Exception",
   "VMM Communication Exception",
   "Security Exception",
   "Reserved (31)"]

/-- Least-significant-first decimal digits, with the 16-char buffer bound of
the source's `rev_buf[16]` (interrupt.cpp:383) as structural fuel. -/
def rev_digits : Nat → Nat → List Char
  | 0, _ => []
  | fuel + 1, temp =>
      if temp = 0 then []
      else Char.ofNat (48 + temp % 10) :: rev_digits fuel (temp / 10)

/-- Embeds `uint32_to_string` (interrupt.cpp:376). -/
def uint32_to_string (value : Nat) : String :=
  if value = 0 then "0" else String.mk (rev_digits 16 value).reverse

/-- One hex digit as in interrupt.cpp:368 (uppercase). -/
def hex_digit (nibble : Nat) : Char :=
  if nibble < 10 then Char.ofNat (48 + nibble) else Char.ofNat (65 + nibble - 10)

/-- Embeds `uint32_to_hex` (interrupt.cpp:363): `0x` then eight nibbles,
most significant first. -/
def uint32_to_hex (value : Nat) : String :=
  String.mk ('0' :: 'x' ::
    ([7, 6, 5, 4, 3, 2, 1, 0].map (fun i => hex_digit ((value >>> (i * 4)) &&& 0xF))))

/-- The vectors for which the source prints the error code
(interrupt.cpp:429). -/
def exc_has_error_code (vector : Nat) : Prop :=
  vector = 8 ∨ (10 ≤ vector ∧ vector ≤ 14) ∨ vector = 17 ∨ vector = 21

instance (vector : Nat) : Decidable (exc_has_error_code vector) := by
  unfold exc_has_error_code; infer_instance

/-- Embeds `exception_handler` (interrupt.cpp:407).  First component: the
strings written to the terminal, in order.  Second component: whether the
handler executed `cli; hlt` (interrupts disabled, processor halted). -/
def exception_handler (vector error_code : Nat) : List String × Bool :=
  let out := ["\n=== EXCEPTION ===\n"]
  let out := if vector < 32 then
      out ++ ["Exception: ", exception_names.getD vector "", "\n"]
    else out
  let out := out ++ ["Vector: ", uint32_to_string vector, "\n"]
  let out := if exc_has_error_code vector then
      out ++ ["Error Code: ", uint32_to_hex error_code, " (",
              uint32_to_string error_code, ")\n"]
    else out
  let out := out ++ ["==================\n"]
  if vector ≠ 14 then (out ++ ["System halted.\n"], true) else (out, false)

/-! ## PIT frequency programming (`set_pit_frequency`, interrupt.cpp:487) -/

def PIT_BASE_FREQUENCY : Nat := 1193182

/-- Embeds the divisor computation of `set_pit_frequency` (interrupt.cpp:487)
for a `uint16_t` parameter value: clamp below 19 up to 19, clamp above the
base frequency down to it, divide, and truncate the result to `uint16_t`
exactly as the source's cast does. -/
def set_pit_frequency_divisor (frequency : Nat) : Nat :=
  let f := if frequency < 19 then 19 else frequency
  let f := if f > PIT_BASE_FREQUENCY then PIT_BASE_FREQUENCY else f
  (PIT_BASE_FREQUENCY / f) % 65536

/-- A C++ call `set_pit_frequency(arg)` with an argument wider than 16 bits:
the implicit conversion to the `uint16_t` parameter reduces it mod 2^16
before the function body runs. -/
def set_pit_frequency_call (arg : Nat) : Nat :=
  set_pit_frequency_divisor (arg % 65536)

/-- The three port writes of `set_pit_frequency` (interrupt.cpp:508-512):
command byte 0x36, divisor low byte, divisor high byte. -/
def set_pit_frequency_writes (frequency : Nat) : List PortEvent :=
  let d := set_pit_frequency_divisor frequency
  [PortEvent.writePort 0x43 0x36,
   PortEvent.writePort 0x40 (d &&& 0xFF),
   PortEvent.writePort 0x40 ((d >>> 8) &&& 0xFF)]

/-! ## RTC reader (`get_rtc_time`, interrupt.cpp:642) -/

/-- The time snapshot structure (interrupt.h `RTCTime`). -/
structure RTCTime where
  second : Nat
  minute : Nat
  hour : Nat
  day : Nat
  month : Nat
  year : Nat
  century : Nat
deriving DecidableEq, Repr

/-- Embeds `bcd_to_binary` (interrupt.cpp:577), a `uint8_t` result. -/
def bcd_to_binary (bcd : Nat) : Nat :=
  (((bcd >>> 4) * 10) + (bcd &&& 0x0F)) % 256

/-- Embeds the loop of `wait_rtc_update` (interrupt.cpp:616): up to 1000
status-A reads; `some k` is success with `k` the index of the next CMOS
read, `none` is the timeout.  `env` gives the value of the k-th CMOS
data-port read. -/
def wait_rtc_update_aux (env : Nat → Nat) : Nat → Nat → Option Nat
  | 0, _ => none
  | fuel + 1, k =>
      if env k &&& 0x80 = 0 then some (k + 1)
      else wait_rtc_update_aux env fuel (k + 1)

def wait_rtc_update (env : Nat → Nat) (k : Nat) : Option Nat :=
  wait_rtc_update_aux env 1000 k

/-- Embeds the day/month/year/century rollover after the timezone offset is
added (interrupt.cpp:761-795); input `hour` already includes the offset. -/
def rtc_rollover (hour day month year century : Nat) :
    Nat × Nat × Nat × Nat × Nat :=
  if hour ≥ 24 then
    let hour := hour - 24
    let day := day + 1
    let days_in_month :=
      if month = 2 then (if year % 4 = 0 then 29 else 28)
      else if month = 4 ∨ month = 6 ∨ month = 9 ∨ month = 11 then 30
      else 31
    if day > days_in_month then
      let month := month + 1
      if month > 12 then
        let year := year + 1
        if year > 99 then
          (hour, 1, 1, 0, if century > 0 then century + 1 else century)
        else (hour, 1, 1, year, century)
      else (hour, 1, month, year, century)
    else (hour, day, month, year, century)
  else (hour, day, month, year, century)

/-- Embeds the normalization part of `get_rtc_time` (interrupt.cpp:702-806):
BCD conversion, range validation, 12-hour conversion, century register
handling, timezone offset (+2, interrupt.h `RTC_TIMEZONE_OFFSET`) with
rollover.  `none` is the source's `return false`. -/
def rtc_normalize (is_bcd is_24hour : Bool)
    (s m h d mo y century_reg : Nat) : Option RTCTime :=
  let second := if is_bcd then bcd_to_binary s else s
  let minute := if is_bcd then bcd_to_binary m else m
  let hour := if is_bcd then bcd_to_binary h else h
  let day := if is_bcd then bcd_to_binary d else d
  let month := if is_bcd then bcd_to_binary mo else mo
  let year := if is_bcd then bcd_to_binary y else y
  if second > 59 ∨ minute > 59 ∨ hour > 23 ∨
      day < 1 ∨ day > 31 ∨ month < 1 ∨ month > 12 ∨ year > 99 then none
  else
    let hour12res : Option Nat :=
      if !is_24hour then
        let hour_12 := hour &&& 0x7F
        let hour2 :=
          if hour &&& 0x80 ≠ 0 then (if hour_12 = 12 then 12 else hour_12 + 12)
          else (if hour_12 = 12 then 0 else hour_12)
        if hour2 > 23 then none else some hour2
      else some hour
    match hour12res with
    | none => none
    | some hour =>
      let century :=
        if century_reg ≠ 0xFF ∧ century_reg ≠ 0x00 then
          let c := if is_bcd then bcd_to_binary century_reg else century_reg
          if c ≠ 19 ∧ c ≠ 20 then 0 else c
        else 0
      let r := rtc_rollover (hour + 2) day month year century
      some ⟨second, minute, r.1, r.2.1, r.2.2.1, r.2.2.2.1, r.2.2.2.2⟩

/-- Embeds the read protocol of `get_rtc_time` (interrupt.cpp:642): wait for
update-in-progress to clear, read status B, read the six fields twice, on a
mismatch wait again and re-read once, then read the century register and
normalize.  `env k` is the value returned by the k-th CMOS data-port read. -/
def get_rtc_time_core (env : Nat → Nat) : Option RTCTime :=
  match wait_rtc_update env 0 with
  | none => none
  | some k =>
    let status_b := env k
    let is_bcd := status_b &&& 0x04 == 0
    let is_24hour := status_b &&& 0x02 != 0
    let k := k + 1
    let s1 := env k
    let m1 := env (k + 1)
    let h1 := env (k + 2)
    let d1 := env (k + 3)
    let mo1 := env (k + 4)
    let y1 := env (k + 5)
    let s2 := env (k + 6)
    let m2 := env (k + 7)
    let h2 := env (k + 8)
    let d2 := env (k + 9)
    let mo2 := env (k + 10)
    let y2 := env (k + 11)
    if s1 ≠ s2 ∨ m1 ≠ m2 ∨ h1 ≠ h2 ∨ d1 ≠ d2 ∨ mo1 ≠ mo2 ∨ y1 ≠ y2 then
      match wait_rtc_update env (k + 12) with
      | none => none
      | some k2 =>
        rtc_normalize is_bcd is_24hour (env k2) (env (k2 + 1)) (env (k2 + 2))
          (env (k2 + 3)) (env (k2 + 4)) (env (k2 + 5)) (env (k2 + 6))
    else
      rtc_normalize is_bcd is_24hour s1 m1 h1 d1 mo1 y1 (env (k + 12))

/-- Embeds `get_rtc_time` with its out-parameter: `time_is_null` models a
null `time` pointer, `mem` the caller's structure before the call; the seven
fields are stored (interrupt.cpp:798-804) only on the success path, so on
every failure the structure is returned unchanged. -/
def get_rtc_time (time_is_null : Bool) (mem : RTCTime) (env : Nat → Nat) :
    Bool × RTCTime :=
  if time_is_null then (false, mem)
  else
    match get_rtc_time_core env with
    | none => (false, mem)
    | some t => (true, t)

/-- CMOS environment: binary, 12-hour mode (status B = 0x04), consistent
double read with hour byte 0x85 (PM flag set, hour 5). -/
def env_bin_pm : Nat → Nat :=
  fun k => [0, 0x04, 0, 0, 0x85, 1, 1, 26, 0, 0, 0x85, 1, 1, 26].getD k 0

/-- CMOS environment: BCD, 12-hour mode (status B = 0x00), consistent double
read with hour byte 0x8C (PM flag set, BCD hour 12). -/
def env_bcd_pm : Nat → Nat :=
  fun k => [0, 0, 0, 0, 0x8C, 1, 1, 0x26, 0, 0, 0x8C, 1, 1, 0x26].getD k 0

/-- A quiescent kernel state used to instantiate universally quantified
theorems at concrete inputs. -/
def kstate0 : KernelState := ⟨0, ⟨false, false, 0⟩, []⟩

def env0 : Nat → Nat := fun _ => 0

end RusticOS

namespace RusticOS

/-- C1: for every request line 0-15, one invocation of the dispatch router
performs exactly one end-of-interrupt acknowledgement on every path,
matched or not: exactly one EOI write to the primary controller's command
port, and exactly one to the secondary controller's command port precisely
when the line number is at least 8. -/
theorem irq_handler_acknowledges_exactly_once (irq : Nat) (hirq : irq ≤ 15)
    (st : KernelState) (env : Nat → Nat) :
    count_eoi_writes PIC1_COMMAND (irq_handler irq st env).2 = 1 ∧
    count_eoi_writes PIC2_COMMAND (irq_handler irq st env).2 =
      (if 8 ≤ irq then 1 else 0) := by
  unfold irq_handler send_eoi
  by_cases h0 : irq = 0
  · subst h0
    simp [count_eoi_writes, PIC1_COMMAND, PIC2_COMMAND, PIC_EOI]
  · by_cases h1 : irq = 1
    · subst h1
      simp [count_eoi_writes, PIC1_COMMAND, PIC2_COMMAND, PIC_EOI]
    · by_cases h8 : 8 ≤ irq <;>
        simp [h0, h1, h8, count_eoi_writes, PIC1_COMMAND, PIC2_COMMAND, PIC_EOI]

theorem irq_handler_acknowledges_exactly_once_witness :
    (9 : Nat) ≤ 15 ∧
    (count_eoi_writes PIC1_COMMAND (irq_handler 9 kstate0 env0).2 = 1 ∧
     count_eoi_writes PIC2_COMMAND (irq_handler 9 kstate0 env0).2 =
       (if 8 ≤ (9 : Nat) then 1 else 0)) :=
  ⟨by decide, irq_handler_acknowledges_exactly_once 9 (by decide) kstate0 env0⟩

/-- C2 (code evaluation at the failing inputs): the parameter of
`set_pit_frequency` is a `uint16_t`, so a call with 2000000 truncates the
argument to 33920 and programs divisor 35, and a call with 1193182
truncates to 13534 and programs divisor 88 — the claimed clamp to the base
frequency (divisor 1) never happens; 0 does clamp to 19 (divisor 62799) and
100 gives divisor 11931. -/
theorem set_pit_frequency_truncates_wide_arguments :
    set_pit_frequency_call 0 = 62799 ∧
    set_pit_frequency_call 100 = 11931 ∧
    set_pit_frequency_call 2000000 = 35 ∧
    set_pit_frequency_call 1193182 = 88 := by decide

/-- C3 (counterexample): the extended-key prefix 0xE0 followed by 0x1C does
yield a character (the newline of the set-1 enter code), refuting the claim
that the byte after 0xE0 is consumed without producing a character. -/
theorem extended_prefix_pair_yields_char :
    (scancode_to_char (scancode_to_char ⟨false, false, 0⟩ 0xE0).1 0x1C).2 ≠ 0 := by
  decide

/-- C3 (amended): 0xE0 itself produces no character and only records the
prefix in `last_scan_code`; the recorded prefix is never consulted again, so
the byte that follows decodes exactly as it would have without the prefix —
and may therefore produce a character. -/
theorem extended_prefix_consumes_one_byte_only (st : KBState) (x : Nat) :
    (scancode_to_char st 0xE0).2 = 0 ∧
    (scancode_to_char st 0xE0).1 = { st with last_scan_code := 0xE0 } ∧
    (scancode_to_char (scancode_to_char st 0xE0).1 x).2 =
      (scancode_to_char st x).2 := by
  refine ⟨rfl, rfl, ?_⟩
  obtain ⟨s, b, l⟩ := st
  by_cases hx1 : x = 0xE0 <;> by_cases hx2 : x = 0xF0 <;> by_cases hb : b <;>
    simp [scancode_to_char, hx1, hx2, hb] <;> split_ifs <;> rfl

/-- C4 (code evaluation at the failing input): BCD byte 0x23 does convert to
23, but a PM hour byte never survives normalization: with 12-hour binary
fields and hour byte 0x85, and with 12-hour BCD fields and hour byte 0x8C,
`get_rtc_time` fails, because the `hour > 23` range check runs before the
PM bit is masked (and BCD conversion is applied to the raw byte with the PM
bit still set). -/
theorem rtc_pm_hour_is_rejected :
    bcd_to_binary 0x23 = 23 ∧
    get_rtc_time_core env_bin_pm = none ∧
    get_rtc_time_core env_bcd_pm = none := by decide

/-- C8: `get_rtc_time` is atomic on failure: a null output pointer yields
false with the caller's structure untouched, every false result leaves the
structure exactly as it was, and the seven fields are written only on the
success path. -/
theorem get_rtc_time_failure_writes_nothing (time_is_null : Bool)
    (mem : RTCTime) (env : Nat → Nat) :
    (time_is_null = true → get_rtc_time time_is_null mem env = (false, mem)) ∧
    ((get_rtc_time time_is_null mem env).1 = false →
      (get_rtc_time time_is_null mem env).2 = mem) ∧
    (∀ t, get_rtc_time_core env = some t → time_is_null = false →
      get_rtc_time time_is_null mem env = (true, t)) := by
  unfold get_rtc_time
  cases time_is_null
  · cases h : get_rtc_time_core env <;> simp [h]
  · simp

theorem get_rtc_time_failure_writes_nothing_witness :
    (get_rtc_time false ⟨1, 2, 3, 4, 5, 6, 7⟩ env_bin_pm).1 = false ∧
    (get_rtc_time false ⟨1, 2, 3, 4, 5, 6, 7⟩ env_bin_pm).2 = ⟨1, 2, 3, 4, 5, 6, 7⟩ :=
  ⟨by decide,
   (get_rtc_time_failure_writes_nothing false ⟨1, 2, 3, 4, 5, 6, 7⟩ env_bin_pm).2.1
     (by decide)⟩

/-- C9: a request line other than 0 and 1 changes nothing — the kernel state
(tick counter, decoder state, event queue) is returned unchanged, the trace
is exactly the acknowledgement, and the keyboard data port is not read;
line 1 leaves the tick counter unchanged, and line 0 leaves the decoder
state and the event queue unchanged. -/
theorem irq_handler_frame (irq : Nat) (st : KernelState) (env : Nat → Nat) :
    (irq ≠ 0 → irq ≠ 1 →
      (irq_handler irq st env).1 = st ∧
      (irq_handler irq st env).2 = send_eoi irq ∧
      count_reads 0x60 (irq_handler irq st env).2 = 0) ∧
    (irq_handler 1 st env).1.system_ticks = st.system_ticks ∧
    (irq_handler 0 st env).1.kb = st.kb ∧
    (irq_handler 0 st env).1.key_events = st.key_events := by
  refine ⟨fun h0 h1 => ⟨?_, ?_, ?_⟩, ?_, ?_, ?_⟩
  · simp [irq_handler, h0, h1]
  · simp [irq_handler, h0, h1]
  · by_cases h8 : 8 ≤ irq <;>
      simp [irq_handler, h0, h1, h8, send_eoi, count_reads]
  · simp [irq_handler, handle_interrupt]
  · simp [irq_handler]
  · simp [irq_handler]

theorem irq_handler_frame_witness :
    (irq_handler 5 kstate0 env0).1 = kstate0 ∧
    (irq_handler 5 kstate0 env0).2 = send_eoi 5 ∧
    count_reads 0x60 (irq_handler 5 kstate0 env0).2 = 0 :=
  (irq_handler_frame 5 kstate0 env0).1 (by decide) (by decide)

/-- C10: for every 16-bit argument value the programmed divisor lies in
[18, 62799]; in particular it is never 0 and the two 8-bit data-port writes
(low byte, then high byte) reconstruct it exactly, with no truncation. -/
theorem pit_divisor_bounds (frequency : Nat) (h : frequency < 65536) :
    18 ≤ set_pit_frequency_divisor frequency ∧
    set_pit_frequency_divisor frequency ≤ 62799 ∧
    (set_pit_frequency_divisor frequency &&& 0xFF) +
      256 * ((set_pit_frequency_divisor frequency >>> 8) &&& 0xFF) =
      set_pit_frequency_divisor frequency := by
  unfold set_pit_frequency_divisor PIT_BASE_FREQUENCY
  set f := if frequency < 19 then 19 else frequency with hf
  have hf1 : 19 ≤ f := by rw [hf]; split <;> omega
  have hf2 : f ≤ 65535 := by rw [hf]; split <;> omega
  have hclamp : ¬ (f > 1193182) := by omega
  simp only [hclamp, if_false]
  have hq1 : 1193182 / f ≤ 62799 := by
    calc 1193182 / f ≤ 1193182 / 19 := Nat.div_le_div_left hf1 (by norm_num)
    _ = 62799 := by norm_num
  have hq2 : 18 ≤ 1193182 / f := by
    rw [Nat.le_div_iff_mul_le (by omega)]
    omega
  have hmod : (1193182 / f) % 65536 = 1193182 / f := Nat.mod_eq_of_lt (by omega)
  rw [hmod]
  refine ⟨hq2, hq1, ?_⟩
  have hand : (1193182 / f) &&& 0xFF = (1193182 / f) % 256 := by
    have := Nat.and_pow_two_sub_one_eq_mod (1193182 / f) 8
    norm_num at this
    exact this
  have hshift : (1193182 / f) >>> 8 = (1193182 / f) / 256 := by
    rw [Nat.shiftRight_eq_div_pow]
  have hand2 : ((1193182 / f) / 256) &&& 0xFF = ((1193182 / f) / 256) % 256 := by
    have := Nat.and_pow_two_sub_one_eq_mod ((1193182 / f) / 256) 8
    norm_num at this
    exact this
  rw [hand, hshift, hand2]
  omega

theorem pit_divisor_bounds_witness :
    (0 : Nat) < 65536 ∧
    (18 ≤ set_pit_frequency_divisor 0 ∧
     set_pit_frequency_divisor 0 ≤ 62799 ∧
     (set_pit_frequency_divisor 0 &&& 0xFF) +
       256 * ((set_pit_frequency_divisor 0 >>> 8) &&& 0xFF) =
       set_pit_frequency_divisor 0) :=
  ⟨by decide, pit_divisor_bounds 0 (by decide)⟩

end RusticOS

namespace RusticOS

/-! Helper lemmas shared by the claim theorems below. -/

theorem uint32_to_hex_marker (ec : Nat) :
    (uint32_to_hex ec).length = 10 ∧ (uint32_to_hex ec).data.get? 1 = some 'x' :=
  ⟨rfl, rfl⟩

theorem uint32_to_hex_ne (ec : Nat) (s : String)
    (h : s.length ≠ 10 ∨ s.data.get? 1 ≠ some 'x') : uint32_to_hex ec ≠ s := by
  intro he
  obtain h | h := h
  · exact h (he ▸ (uint32_to_hex_marker ec).1)
  · exact h (he ▸ (uint32_to_hex_marker ec).2)

theorem exception_names_marker :
    ∀ u, u < 32 →
      (exception_names.getD u "").length ≠ 10 ∨
      (exception_names.getD u "").data.get? 1 ≠ some 'x' := by decide

theorem uint32_to_string_small :
    ∀ u, u < 32 → (uint32_to_string u).length ≠ 10 := by decide

theorem exc14 : exc_has_error_code 14 := by decide

theorem hex_mem_out_iff (v ec : Nat) (hv : v < 32) :
    uint32_to_hex ec ∈ (exception_handler v ec).1 ↔ exc_has_error_code v := by
  constructor
  · intro hmem
    by_contra hv2
    have h14 : v ≠ 14 := fun h => hv2 (h ▸ exc14)
    simp only [exception_handler, if_pos hv, if_neg hv2, if_pos h14,
      List.mem_append, List.mem_cons, List.not_mem_nil, or_false] at hmem
    rcases hmem with (((h | h | h | h) | h | h | h) | h) | h
    · exact uint32_to_hex_ne ec _ (by decide) h
    · exact uint32_to_hex_ne ec _ (by decide) h
    · exact uint32_to_hex_ne ec _ (exception_names_marker v hv) h
    · exact uint32_to_hex_ne ec _ (by decide) h
    · exact uint32_to_hex_ne ec _ (by decide) h
    · exact uint32_to_hex_ne ec _ (Or.inl (uint32_to_string_small v hv)) h
    · exact uint32_to_hex_ne ec _ (by decide) h
    · exact uint32_to_hex_ne ec _ (by decide) h
    · exact uint32_to_hex_ne ec _ (by decide) h
  · intro hv2
    by_cases h14 : v = 14
    · subst h14
      simp [exception_handler, exc14]
    · simp [exception_handler, hv, hv2, h14]

theorem set_clear_testBit (a k i : Nat) (hk : k < 8) (hi : i < 8) :
    ((a &&& (255 ^^^ (1 <<< k))) ||| (1 <<< k)).testBit i =
      if i = k then true else a.testBit i := by
  have hsl : (1 : Nat) <<< k = 2 ^ k := by rw [Nat.shiftLeft_eq, one_mul]
  have h255 : Nat.testBit 255 i = true := by
    have h := Nat.testBit_two_pow_sub_one 8 i
    norm_num at h
    simp [h, hi]
  rw [hsl]
  by_cases h : i = k
  · subst h
    simp [Nat.testBit_or, Nat.testBit_and, Nat.testBit_xor,
      Nat.testBit_two_pow, h255]
  · simp [Nat.testBit_or, Nat.testBit_and, Nat.testBit_xor,
      Nat.testBit_two_pow, h255, h, Ne.symm h]

/-- C5 (counterexample): with the post-initialization master mask 0xFC (line
0 unmasked), `enable_irq 0` followed by `disable_irq 0` leaves line 0's mask
bit set — it does not restore the bit to its value before the `enable_irq`
call. -/
theorem enable_disable_not_inverse :
    pic_line_bit (disable_irq 0 (enable_irq 0 ⟨0xFC, 0xFF⟩)) 0 ≠
      pic_line_bit ⟨0xFC, 0xFF⟩ 0 := by decide

/-- C5 (amended): `enable_irq n` followed by `disable_irq n` (n in 0-15)
always leaves line n's mask bit set (disabled) and leaves every other bit of
both controllers' masks unchanged; the pre-call value of bit n is therefore
restored exactly when the line was already masked before the `enable_irq`
call. -/
theorem enable_then_disable_sets_bit (n : Nat) (hn : n ≤ 15) (m : PICMasks) :
    pic_line_bit (disable_irq n (enable_irq n m)) n = true ∧
    (∀ i, i ≤ 15 → i ≠ n →
      pic_line_bit (disable_irq n (enable_irq n m)) i = pic_line_bit m i) ∧
    (pic_line_bit (disable_irq n (enable_irq n m)) n = pic_line_bit m n ↔
      pic_line_bit m n = true) := by
  have hn15 : ¬ n > 15 := by omega
  by_cases hn8 : n < 8
  · have hmast : (disable_irq n (enable_irq n m)).master =
        (m.master &&& (255 ^^^ (1 <<< n))) ||| (1 <<< n) := by
      simp [enable_irq, disable_irq, hn15, hn8]
    have hslav : (disable_irq n (enable_irq n m)).slave = m.slave := by
      simp [enable_irq, disable_irq, hn15, hn8]
    have hbit : pic_line_bit (disable_irq n (enable_irq n m)) n = true := by
      rw [pic_line_bit, if_pos hn8, hmast, set_clear_testBit _ _ _ hn8 hn8,
        if_pos rfl]
    refine ⟨hbit, fun i hi hne => ?_, ?_⟩
    · by_cases hi8 : i < 8
      · rw [pic_line_bit, if_pos hi8, hmast, set_clear_testBit _ _ _ hn8 hi8,
          if_neg hne, pic_line_bit, if_pos hi8]
      · rw [pic_line_bit, if_neg hi8, hslav, pic_line_bit, if_neg hi8]
    · rw [hbit]
      constructor
      · intro h
        exact h.symm
      · intro h
        exact h.symm
  · have hn8' : n - 8 < 8 := by omega
    have hmast : (disable_irq n (enable_irq n m)).master = m.master := by
      simp [enable_irq, disable_irq, hn15, hn8]
    have hslav : (disable_irq n (enable_irq n m)).slave =
        (m.slave &&& (255 ^^^ (1 <<< (n - 8)))) ||| (1 <<< (n - 8)) := by
      simp [enable_irq, disable_irq, hn15, hn8]
    have hbit : pic_line_bit (disable_irq n (enable_irq n m)) n = true := by
      rw [pic_line_bit, if_neg hn8, hslav, set_clear_testBit _ _ _ hn8' hn8',
        if_pos rfl]
    refine ⟨hbit, fun i hi hne => ?_, ?_⟩
    · by_cases hi8 : i < 8
      · rw [pic_line_bit, if_pos hi8, hmast, pic_line_bit, if_pos hi8]
      · have hne8 : i - 8 ≠ n - 8 := by omega
        rw [pic_line_bit, if_neg hi8, hslav, set_clear_testBit _ _ _ hn8' (by omega),
          if_neg hne8, pic_line_bit, if_neg hi8]
    · rw [hbit]
      constructor
      · intro h
        exact h.symm
      · intro h
        exact h.symm

theorem enable_then_disable_sets_bit_witness :
    (2 : Nat) ≤ 15 ∧
    (pic_line_bit (disable_irq 2 (enable_irq 2 ⟨0xFC, 0xFF⟩)) 2 = true ∧
     (∀ i, i ≤ 15 → i ≠ 2 →
       pic_line_bit (disable_irq 2 (enable_irq 2 ⟨0xFC, 0xFF⟩)) i =
         pic_line_bit ⟨0xFC, 0xFF⟩ i) ∧
     (pic_line_bit (disable_irq 2 (enable_irq 2 ⟨0xFC, 0xFF⟩)) 2 =
        pic_line_bit ⟨0xFC, 0xFF⟩ 2 ↔
      pic_line_bit ⟨0xFC, 0xFF⟩ 2 = true)) :=
  ⟨by decide, enable_then_disable_sets_bit 2 (by decide) ⟨0xFC, 0xFF⟩⟩

/-- C6: for every exception vector below 32 and every error code, the
handler reports the exception name and the vector number; the error code is
reported exactly for the vectors that carry one (8, 10-14, 17, 21); and the
handler disables interrupts and halts for every vector except 14 (page
fault), which returns without halting. -/
theorem exception_handler_reports_and_halts (v ec : Nat) (hv : v < 32) :
    exception_names.getD v "" ∈ (exception_handler v ec).1 ∧
    uint32_to_string v ∈ (exception_handler v ec).1 ∧
    ((uint32_to_hex ec ∈ (exception_handler v ec).1 ∧
      uint32_to_string ec ∈ (exception_handler v ec).1) ↔ exc_has_error_code v) ∧
    ((exception_handler v ec).2 = true ↔ v ≠ 14) := by
  refine ⟨?_, ?_, ⟨fun h => (hex_mem_out_iff v ec hv).mp h.1, fun h => ⟨?_, ?_⟩⟩, ?_⟩
  · by_cases h14 : v = 14
    · subst h14
      simp [exception_handler, exc14]
    · by_cases hcode : exc_has_error_code v <;>
        simp [exception_handler, hv, hcode, h14]
  · by_cases h14 : v = 14
    · subst h14
      simp [exception_handler, exc14]
    · by_cases hcode : exc_has_error_code v <;>
        simp [exception_handler, hv, hcode, h14]
  · exact (hex_mem_out_iff v ec hv).mpr h
  · by_cases h14 : v = 14
    · subst h14
      simp [exception_handler, exc14]
    · simp [exception_handler, hv, h, h14]
  · by_cases h14 : v = 14
    · subst h14
      simp [exception_handler]
    · simp [exception_handler, h14]

theorem exception_handler_reports_and_halts_witness :
    (13 : Nat) < 32 ∧
    (exception_names.getD 13 "" ∈ (exception_handler 13 5).1 ∧
     uint32_to_string 13 ∈ (exception_handler 13 5).1 ∧
     ((uint32_to_hex 5 ∈ (exception_handler 13 5).1 ∧
       uint32_to_string 5 ∈ (exception_handler 13 5).1) ↔ exc_has_error_code 13) ∧
     ((exception_handler 13 5).2 = true ↔ (13 : Nat) ≠ 14)) :=
  ⟨by decide, exception_handler_reports_and_halts 13 5 (by decide)⟩

/-- C7: from a decoder state with no pending break prefix, any key code
whose set-1 table entry for the current shift state is a visible character
(ASCII 32 or above) decodes to exactly that character on the press byte and
to no character on the release byte (press with bit 7 set), for both shift
states. -/
theorem press_release_round_trip (st : KBState) (code : Nat)
    (hb : st.expecting_break_code = false)
    (hch : 32 ≤ scancode_set1_to_ascii code st.shift_pressed) :
    (scancode_to_char st code).2 = scancode_set1_to_ascii code st.shift_pressed ∧
    (scancode_to_char (scancode_to_char st code).1 (code ||| 0x80)).2 = 0 := by
  have hcode : code < 0x3A := by
    by_contra hge
    rw [scancode_set1_to_ascii, if_neg (by omega)] at hch
    omega
  obtain ⟨s, b, l⟩ := st
  dsimp only at hb hch ⊢
  subst hb
  cases s <;> interval_cases code <;>
    first
      | exact absurd hch (by decide)
      | exact ⟨rfl, rfl⟩

theorem press_release_round_trip_witness :
    (⟨false, false, 0⟩ : KBState).expecting_break_code = false ∧
    32 ≤ scancode_set1_to_ascii 0x1E (⟨false, false, 0⟩ : KBState).shift_pressed ∧
    ((scancode_to_char ⟨false, false, 0⟩ 0x1E).2 =
       scancode_set1_to_ascii 0x1E (⟨false, false, 0⟩ : KBState).shift_pressed ∧
     (scancode_to_char (scancode_to_char ⟨false, false, 0⟩ 0x1E).1
        (0x1E ||| 0x80)).2 = 0) :=
  ⟨rfl, by decide, press_release_round_trip ⟨false, false, 0⟩ 0x1E rfl (by decide)⟩

end RusticOS
